import Mathlib

/-!
Verification of the authentication service in `src/service/Authentication.ts`
(repository `gondolin`).

The service orchestrates login (credential check, token issuance) and
registration (password hashing, persistence) over external collaborators:
a password utility (one-way hash and compare), a token utility (signing)
and a user store (ORM model `User`).  The external collaborators are kept
abstract as function parameters; the branching logic of the service itself
is embedded faithfully from the source.
-/

/-- A stored user record, after the data model of `src/models/User`
(fields used by `Authentication.ts`: `id`, `username`, `password` —
the stored hash —, `details`, `clientConfig`). -/
structure User where
  id : Nat
  username : String
  password : String
  details : String
  clientConfig : String
  deriving Repr, DecidableEq

/-- The payload signed into a token on successful login
(`const payload = { id, username }` in `login`): exactly the two
fields `id` and `username`. -/
structure Payload where
  id : Nat
  username : String
  deriving Repr, DecidableEq

/-- Result object shape shared by `login` and `register`:
`{ success, message, token?, user? }`.  `login` never sets `user`;
`register` never sets `token`; a missing field is `none`. -/
structure AuthResult where
  success : Bool
  message : String
  token : Option String
  user : Option User
  deriving Repr, DecidableEq

/-- `User.scope('withPassword').findOne({ where: { username: inputName } })`:
the first stored record whose `username` equals `inputName` exactly,
with the password field included. -/
def findOneByUsername (store : List User) (inputName : String) : Option User :=
  store.find? (fun u => u.username == inputName)

/-- `User.findOne({ where: { id: jwtPayload.id } })`: the first stored
record whose `id` equals the given id. -/
def findOneById (store : List User) (i : Nat) : Option User :=
  store.find? (fun u => u.id == i)

/-- `AuthenticationService.login(inputName, inputPassword)`, embedded from
`src/service/Authentication.ts` lines 68–113.  The user store, the password
comparison (`SecurityUtil.comparePassword`) and the token signer
(`jwt.sign` with the shared secret already applied) are parameters. -/
def login (store : List User) (comparePassword : String → String → Bool)
    (sign : Payload → String) (inputName inputPassword : String) : AuthResult :=
  match findOneByUsername store inputName with
  | none =>
      { success := false, message := "No such user.", token := none, user := none }
  | some user =>
      if comparePassword inputPassword user.password then
        let payload : Payload := { id := user.id, username := user.username }
        let token := sign payload
        { success := true, message := "User logged in.", token := some token, user := none }
      else
        { success := false, message := "Password did not match.", token := none, user := none }

/-- The registration input destructured from `userData` in `register`:
`{ username, password, details, clientConfig }`; `password` here is the
plaintext. -/
structure RegisterInput where
  username : String
  password : String
  details : String
  clientConfig : String
  deriving Repr, DecidableEq

/-- The record `register` passes to `User.create`: the destructured input
with the password replaced by its hash
(`SecurityUtil.generateHash(password)`). -/
def createInput (generateHash : String → String) (userData : RegisterInput) :
    RegisterInput :=
  { username := userData.username
    password := generateHash userData.password
    details := userData.details
    clientConfig := userData.clientConfig }

/-- `AuthenticationService.register(userData)`, embedded from
`src/service/Authentication.ts` lines 128–165.  The persistence call
`User.create` is a parameter that either raises (`Except.error`), returns a
created record (`some user`) or returns no record (`none`); the hash
utility `SecurityUtil.generateHash` is a parameter.  A raised persistence
error is logged and re-raised unchanged (`.catch(error => { ...; throw error })`). -/
def register (generateHash : String → String)
    (create : RegisterInput → Except String (Option User))
    (userData : RegisterInput) : Except String AuthResult :=
  match create (createInput generateHash userData) with
  | .error e => .error e
  | .ok (some user) =>
      .ok { success := true, message := "Registration completed.", token := none,
            user := some user }
  | .ok none =>
      .ok { success := false, message := "Registration failed.", token := none,
            user := none }

/-- Outcome of the passport strategy callback: `next(err, userOrFalse)`.
`error` is the first argument (always `null` in this callback), `auth` the
second (`user` or `false`, i.e. `none`). -/
structure StrategyOutcome where
  error : Option String
  auth : Option User
  deriving Repr, DecidableEq

/-- The `jwtStrategy` verification callback, embedded from
`src/service/Authentication.ts` lines 22–35: look the user up by the id in
the decoded payload; found → `next(null, user)`, not found →
`next(null, false)`. -/
def jwtStrategyCallback (store : List User) (jwtPayload : Payload) :
    StrategyOutcome :=
  match findOneById store jwtPayload.id with
  | some user => { error := none, auth := some user }
  | none => { error := none, auth := none }

/- Helper facts about the lookups. -/

theorem findOneByUsername_some_mem {store : List User} {name : String} {u : User}
    (h : findOneByUsername store name = some u) : u ∈ store ∧ u.username = name := by
  unfold findOneByUsername at h
  refine ⟨List.mem_of_find?_eq_some h, ?_⟩
  have := List.find?_some h
  simpa using this

theorem findOneById_some_mem {store : List User} {i : Nat} {u : User}
    (h : findOneById store i = some u) : u ∈ store ∧ u.id = i := by
  unfold findOneById at h
  refine ⟨List.mem_of_find?_eq_some h, ?_⟩
  have := List.find?_some h
  simpa using this

theorem findOneByUsername_eq_none {store : List User} {name : String}
    (h : ∀ u ∈ store, u.username ≠ name) : findOneByUsername store name = none := by
  unfold findOneByUsername
  rw [List.find?_eq_none]
  intro u hu
  simpa using h u hu

theorem findOneByUsername_unique {store : List User} {name : String} {u : User}
    (huniq : store.Pairwise (fun a b => a.username ≠ b.username))
    (hmem : u ∈ store) (hname : u.username = name) :
    findOneByUsername store name = some u := by
  induction store with
  | nil => simp at hmem
  | cons a rest ih =>
      rcases List.mem_cons.mp hmem with h | h
      · subst h
        unfold findOneByUsername
        simp [hname]
      · have hne : a.username ≠ name := by
          intro hcontra
          exact (List.pairwise_cons.mp huniq).1 u h (hcontra.trans hname.symm)
        unfold findOneByUsername
        simp only [List.find?_cons]
        have : (a.username == name) = false := by
          simpa using hne
        rw [this]
        exact ih (List.pairwise_cons.mp huniq).2 h

theorem login_eq_of_found {store : List User}
    {comparePassword : String → String → Bool} {sign : Payload → String}
    {inputName inputPassword : String} {u : User}
    (hfind : findOneByUsername store inputName = some u) :
    login store comparePassword sign inputName inputPassword =
      if comparePassword inputPassword u.password then
        { success := true, message := "User logged in.",
          token := some (sign { id := u.id, username := u.username }), user := none }
      else
        { success := false, message := "Password did not match.", token := none,
          user := none } := by
  unfold login
  rw [hfind]

theorem login_eq_of_not_found {store : List User}
    {comparePassword : String → String → Bool} {sign : Payload → String}
    {inputName inputPassword : String}
    (hfind : findOneByUsername store inputName = none) :
    login store comparePassword sign inputName inputPassword =
      { success := false, message := "No such user.", token := none, user := none } := by
  unfold login
  rw [hfind]

/-- C1: a token is issued by `login` only when the password comparison of
the supplied password against the stored hash succeeded, for a stored user
whose username equals the supplied name exactly; the not-found and
mismatch branches never carry a token. -/
theorem login_token_only_after_compare
    (store : List User) (comparePassword : String → String → Bool)
    (sign : Payload → String) (inputName inputPassword : String) (t : String)
    (h : (login store comparePassword sign inputName inputPassword).token = some t) :
    ∃ u, findOneByUsername store inputName = some u ∧ u ∈ store ∧
      u.username = inputName ∧ comparePassword inputPassword u.password = true := by
  cases hfind : findOneByUsername store inputName with
  | none => rw [login_eq_of_not_found hfind] at h; simp at h
  | some u =>
      rw [login_eq_of_found hfind] at h
      by_cases hcmp : comparePassword inputPassword u.password
      · obtain ⟨hmem, hname⟩ := findOneByUsername_some_mem hfind
        exact ⟨u, rfl, hmem, hname, hcmp⟩
      · simp [hcmp] at h

/-- C1 witness: concrete evaluation of the hypothesis and conclusion. -/
theorem login_token_only_after_compare_witness :
    ∃ u, findOneByUsername [⟨1, "ada", "h1", "", ""⟩] "ada" = some u ∧
      u ∈ [(⟨1, "ada", "h1", "", ""⟩ : User)] ∧ u.username = "ada" ∧
      (fun (p s : String) => p == s) "h1" u.password = true :=
  login_token_only_after_compare [⟨1, "ada", "h1", "", ""⟩]
    (fun p s => p == s) (fun _ => "tok") "ada" "h1" "tok" (by decide)

/-- C2: when the store holds a user with the supplied username whose stored
hash matches the supplied password (usernames being unique in the store, as
in the data model), `login` succeeds with a non-empty token, provided the
signer never produces the empty string. -/
theorem login_success_correct_credentials
    (store : List User) (comparePassword : String → String → Bool)
    (sign : Payload → String) (inputName inputPassword : String) (u : User)
    (hsign : ∀ p, sign p ≠ "")
    (huniq : store.Pairwise (fun a b => a.username ≠ b.username))
    (hmem : u ∈ store) (hname : u.username = inputName)
    (hcmp : comparePassword inputPassword u.password = true) :
    (login store comparePassword sign inputName inputPassword).success = true ∧
    ∃ t, (login store comparePassword sign inputName inputPassword).token = some t ∧
      t ≠ "" := by
  have hfind := findOneByUsername_unique huniq hmem hname
  rw [login_eq_of_found hfind, hcmp]
  exact ⟨rfl, sign ⟨u.id, u.username⟩, rfl, hsign _⟩

/-- C2 witness: a concrete store, matching credentials, concrete signer. -/
theorem login_success_correct_credentials_witness :
    (login [⟨1, "ada", "h1", "", ""⟩] (fun p s => p == s) (fun _ => "tok")
      "ada" "h1").success = true ∧
    ∃ t, (login [⟨1, "ada", "h1", "", ""⟩] (fun p s => p == s) (fun _ => "tok")
      "ada" "h1").token = some t ∧ t ≠ "" :=
  login_success_correct_credentials [⟨1, "ada", "h1", "", ""⟩]
    (fun p s => p == s) (fun _ => "tok") "ada" "h1" ⟨1, "ada", "h1", "", ""⟩
    (fun p => by simp) (by simp) (by simp) (by decide) (by decide)

/-- C3: when no stored user has the supplied username, `login` fails with
message "No such user." and no token. -/
theorem login_no_such_user
    (store : List User) (comparePassword : String → String → Bool)
    (sign : Payload → String) (inputName inputPassword : String)
    (h : ∀ u ∈ store, u.username ≠ inputName) :
    login store comparePassword sign inputName inputPassword =
      { success := false, message := "No such user.", token := none, user := none } := by
  unfold login
  rw [findOneByUsername_eq_none h]

/-- C3 witness: a store with one user, queried for another name. -/
theorem login_no_such_user_witness :
    login [⟨1, "ada", "h1", "", ""⟩] (fun p s => p == s) (fun _ => "tok")
      "bob" "x" =
      { success := false, message := "No such user.", token := none, user := none } :=
  login_no_such_user [⟨1, "ada", "h1", "", ""⟩] (fun p s => p == s)
    (fun _ => "tok") "bob" "x" (by decide)

/-- C4: when the store holds a user with the supplied username (usernames
unique) whose stored hash does not match the supplied password, `login`
fails with message "Password did not match." and no token. -/
theorem login_password_mismatch
    (store : List User) (comparePassword : String → String → Bool)
    (sign : Payload → String) (inputName inputPassword : String) (u : User)
    (huniq : store.Pairwise (fun a b => a.username ≠ b.username))
    (hmem : u ∈ store) (hname : u.username = inputName)
    (hcmp : comparePassword inputPassword u.password = false) :
    login store comparePassword sign inputName inputPassword =
      { success := false, message := "Password did not match.", token := none,
        user := none } := by
  have hfind := findOneByUsername_unique huniq hmem hname
  rw [login_eq_of_found hfind, hcmp]
  simp

/-- C4 witness: known user, wrong password. -/
theorem login_password_mismatch_witness :
    login [⟨1, "ada", "h1", "", ""⟩] (fun p s => p == s) (fun _ => "tok")
      "ada" "wrong" =
      { success := false, message := "Password did not match.", token := none,
        user := none } :=
  login_password_mismatch [⟨1, "ada", "h1", "", ""⟩] (fun p s => p == s)
    (fun _ => "tok") "ada" "wrong" ⟨1, "ada", "h1", "", ""⟩
    (by simp) (by simp) (by decide) (by decide)

/-- C5: every token issued by `login` is the signature of the payload
`{ id := u.id, username := u.username }` of the authenticated user `u`
(the record found by the username lookup) — the `Payload` structure has
exactly those two fields and nothing else. -/
theorem login_token_payload
    (store : List User) (comparePassword : String → String → Bool)
    (sign : Payload → String) (inputName inputPassword : String) (t : String)
    (h : (login store comparePassword sign inputName inputPassword).token = some t) :
    ∃ u, findOneByUsername store inputName = some u ∧
      t = sign { id := u.id, username := u.username } := by
  cases hfind : findOneByUsername store inputName with
  | none => rw [login_eq_of_not_found hfind] at h; simp at h
  | some u =>
      rw [login_eq_of_found hfind] at h
      by_cases hcmp : comparePassword inputPassword u.password
      · refine ⟨u, rfl, ?_⟩
        rw [hcmp] at h
        simp at h
        exact h.symm
      · simp [hcmp] at h

/-- C5 witness: concrete evaluation at a store with one user. -/
theorem login_token_payload_witness :
    ∃ u, findOneByUsername [⟨1, "ada", "h1", "", ""⟩] "ada" = some u ∧
      "tok:1" = (fun (p : Payload) => "tok:" ++ toString p.id)
        { id := u.id, username := u.username } :=
  login_token_payload [⟨1, "ada", "h1", "", ""⟩] (fun p s => p == s)
    (fun p => "tok:" ++ toString p.id) "ada" "h1" "tok:1" (by decide)

/-- C6: when persistence succeeds with a record, `register` passes to the
persistence layer a user whose stored password field is the hash of the
plaintext input (hence differs from the plaintext whenever the hash does),
and returns success with the created record unprojected. -/
theorem register_success
    (generateHash : String → String)
    (create : RegisterInput → Except String (Option User))
    (userData : RegisterInput) (u : User)
    (hcreate : create (createInput generateHash userData) = .ok (some u))
    (hhash : generateHash userData.password ≠ userData.password) :
    (createInput generateHash userData).password = generateHash userData.password ∧
    (createInput generateHash userData).password ≠ userData.password ∧
    register generateHash create userData =
      .ok { success := true, message := "Registration completed.", token := none,
            user := some u } := by
  refine ⟨rfl, hhash, ?_⟩
  unfold register
  rw [hcreate]

/-- C6 witness: concrete hash and persistence layer. -/
theorem register_success_witness :
    (createInput (fun s => "#" ++ s) ⟨"ada", "pw", "", ""⟩).password =
      (fun (s : String) => "#" ++ s) "pw" ∧
    (createInput (fun s => "#" ++ s) ⟨"ada", "pw", "", ""⟩).password ≠ "pw" ∧
    register (fun s => "#" ++ s)
      (fun i => .ok (some ⟨1, i.username, i.password, i.details, i.clientConfig⟩))
      ⟨"ada", "pw", "", ""⟩ =
      .ok { success := true, message := "Registration completed.", token := none,
            user := some ⟨1, "ada", "#pw", "", ""⟩ } :=
  register_success (fun s => "#" ++ s)
    (fun i => .ok (some ⟨1, i.username, i.password, i.details, i.clientConfig⟩))
    ⟨"ada", "pw", "", ""⟩ ⟨1, "ada", "#pw", "", ""⟩ rfl (by decide)

/-- C7: a persistence error during registration is re-raised unchanged to
the caller; no structured failure result is returned. -/
theorem register_error_propagates
    (generateHash : String → String)
    (create : RegisterInput → Except String (Option User))
    (userData : RegisterInput) (e : String)
    (hcreate : create (createInput generateHash userData) = .error e) :
    register generateHash create userData = .error e := by
  unfold register
  rw [hcreate]

/-- C7 witness: a persistence layer that always raises. -/
theorem register_error_propagates_witness :
    register (fun s => "#" ++ s) (fun _ => .error "unique violation")
      ⟨"ada", "pw", "", ""⟩ = .error "unique violation" :=
  register_error_propagates (fun s => "#" ++ s)
    (fun _ => .error "unique violation") ⟨"ada", "pw", "", ""⟩
    "unique violation" rfl

/-- C8: when persistence returns no record without raising, `register`
returns failure with message "Registration failed." and no user field. -/
theorem register_no_record
    (generateHash : String → String)
    (create : RegisterInput → Except String (Option User))
    (userData : RegisterInput)
    (hcreate : create (createInput generateHash userData) = .ok none) :
    register generateHash create userData =
      .ok { success := false, message := "Registration failed.", token := none,
            user := none } := by
  unfold register
  rw [hcreate]

/-- C8 witness: a persistence layer that returns no record. -/
theorem register_no_record_witness :
    register (fun s => "#" ++ s) (fun _ => .ok none) ⟨"ada", "pw", "", ""⟩ =
      .ok { success := false, message := "Registration failed.", token := none,
            user := none } :=
  register_no_record (fun s => "#" ++ s) (fun _ => .ok none)
    ⟨"ada", "pw", "", ""⟩ rfl

/-- C9: the strategy callback looks the user up by the payload id: if some
stored user has that id it resolves a stored record with that id and no
error; if none has it, it signals unauthenticated (`false`) without
raising an error. -/
theorem jwtStrategyCallback_spec
    (store : List User) (jwtPayload : Payload) :
    ((∃ u ∈ store, u.id = jwtPayload.id) →
      ∃ u, jwtStrategyCallback store jwtPayload = { error := none, auth := some u } ∧
        u ∈ store ∧ u.id = jwtPayload.id) ∧
    ((∀ u ∈ store, u.id ≠ jwtPayload.id) →
      jwtStrategyCallback store jwtPayload = { error := none, auth := none }) := by
  constructor
  · rintro ⟨u, hmem, hid⟩
    cases hfind : findOneById store jwtPayload.id with
    | none =>
        exfalso
        unfold findOneById at hfind
        rw [List.find?_eq_none] at hfind
        exact hfind u hmem (by simpa using hid)
    | some v =>
        obtain ⟨hvmem, hvid⟩ := findOneById_some_mem hfind
        exact ⟨v, by unfold jwtStrategyCallback; rw [hfind], hvmem, hvid⟩
  · intro h
    have hfind : findOneById store jwtPayload.id = none := by
      unfold findOneById
      rw [List.find?_eq_none]
      intro u hu
      simpa using h u hu
    unfold jwtStrategyCallback
    rw [hfind]

/-- C10: for every input, `login` carries a token exactly when it succeeds,
never carries a user field, and its message is one of "User logged in.",
"No such user.", "Password did not match.". -/
theorem login_result_invariant
    (store : List User) (comparePassword : String → String → Bool)
    (sign : Payload → String) (inputName inputPassword : String) :
    ((login store comparePassword sign inputName inputPassword).token.isSome ↔
      (login store comparePassword sign inputName inputPassword).success = true) ∧
    (login store comparePassword sign inputName inputPassword).user = none ∧
    ((login store comparePassword sign inputName inputPassword).message =
        "User logged in." ∨
      (login store comparePassword sign inputName inputPassword).message =
        "No such user." ∨
      (login store comparePassword sign inputName inputPassword).message =
        "Password did not match.") := by
  unfold login
  cases findOneByUsername store inputName with
  | none => simp
  | some u =>
      by_cases hcmp : comparePassword inputPassword u.password
      · simp [hcmp]
      · simp [hcmp]
